import Mathlib

/-!
Shallow embedding of the context-menu composition and dispatch engine of
src/main.cpp (Qt-Context-Menu-In-Graphics-System).

Modelling choices, each tied to the source:

* The global Qt clipboard (QApplication::clipboard()->text()) is the only
  piece of ambient state the core reads; it is modelled as a World record
  passed to every command method and to menu construction.
* Observable side effects (QMessageBox::information, qDebug) are modelled
  as an Event trace returned by execute.
* ICommand (main.cpp:108-122) is an abstract C++ class with virtual
  execute/isEnable/isVisible, the latter two defaulting to true.  It is
  modelled as a structure of functions, so arbitrary subclasses are
  arbitrary inhabitants; the concrete commands of main.cpp are concrete
  inhabitants.
* CommandContext (main.cpp:21-28) carries a scene pointer and an extras
  map whose only consumed key is "selection", a QList of possibly-null
  BaseCustomItem pointers; commands only ever read each item via its
  objectType string, so the selection is modelled as a list of optional
  type-identifier strings.
* QMenu construction (addAction / addSeparator / addMenu) is modelled as
  an ordered entry list.
* MenuStrategy (main.cpp:208-229) is an abstract class with virtual
  createMenu plus the protected addCommandAction helpers; modelled as a
  structure of one function plus free helper functions.
* MenuStrategyFactory (main.cpp:344-367) keeps a QMap from type string to
  zero-argument creator; QMap assignment replaces the binding for an
  existing key, modelled by an association list whose insert removes the
  old binding and prepends the new one, with first-match lookup.
* CustomScene::contextMenuEvent (main.cpp:379-416) is modelled as a pure
  function of the world, the factory state and the hit-test outcome,
  yielding either the entry list of the shown menu or default handling.
-/

/-- Ambient Qt state read by the core: the application clipboard text
(QApplication::clipboard()->text()). -/
structure World where
  clipboardText : String
deriving Repr

/-- Observable side effect of a command execution: a modal message box
(QMessageBox::information with a title and a text) or a qDebug line. -/
inductive Event where
  | messageBox (title : String) (text : String)
  | debugMsg (text : String)
deriving Repr, DecidableEq

/-- CommandContext of main.cpp:21-28.  `hasScene` records whether the
scene pointer was set; `selection` is extras["selection"], a list of
possibly-null item pointers, each non-null item represented by its
objectType string (the only datum commands read from an item). -/
structure CommandContext where
  hasScene : Bool := false
  selection : List (Option String) := []
deriving Repr

/-- ICommand of main.cpp:108-122: virtual execute, and virtual
isEnable / isVisible both defaulting to true.  A structure of functions;
inhabitants model subclasses. -/
structure ICommand where
  execute : World → CommandContext → List Event
  isEnable : World → CommandContext → Bool := fun _ _ => true
  isVisible : World → CommandContext → Bool := fun _ _ => true

/-- BaseCustomItem::copy (main.cpp:44-46): shows a message box titled
"Copy" whose text appends the item objectType. -/
def BaseCustomItem.copy (objectType : String) : Event :=
  Event.messageBox "Copy" ("Copy action: objectType = " ++ objectType)

/-- CopyCommand (main.cpp:153-162): reads extras["selection"] and calls
copy() on every non-null item of the list. -/
def CopyCommand : ICommand where
  execute := fun _ ctx =>
    (ctx.selection.filterMap id).map BaseCustomItem.copy

/-- PasteCommand (main.cpp:165-177): execute shows a message box titled
"paste" with the clipboard text; isEnable is overridden to return
!clipboard->text().isEmpty(). -/
def PasteCommand : ICommand where
  execute := fun w _ => [Event.messageBox "paste" w.clipboardText]
  isEnable := fun w _ => !w.clipboardText.isEmpty

/-- NullCommand (main.cpp:180-185): execute does nothing; isEnable and
isVisible keep the defaults (true). -/
def NullCommand : ICommand where
  execute := fun _ _ => []

/-- CustomCommand1 (main.cpp:188-193): qDebug trace only. -/
def CustomCommand1 : ICommand where
  execute := fun _ _ => [Event.debugMsg "CustomCommand1 executed"]

/-- CustomCommand2 (main.cpp:196-201): qDebug trace only. -/
def CustomCommand2 : ICommand where
  execute := fun _ _ => [Event.debugMsg "CustomCommand2 executed"]

/-- CompositeCommand state (main.cpp:125-139): the private vector of
child command pointers. -/
structure CompositeCommand where
  commands : List ICommand := []

/-- CompositeCommand::addCommand (main.cpp:127-129): pushes the child
only when the pointer is non-null. -/
def CompositeCommand.addCommand (c : CompositeCommand) (cmd : Option ICommand) :
    CompositeCommand :=
  match cmd with
  | some k => ⟨c.commands ++ [k]⟩
  | none => c

/-- CompositeCommand as an ICommand (main.cpp:131-135): execute runs each
stored child in order (the in-loop null check never fires because
addCommand stores only non-null children); isEnable/isVisible keep the
inherited defaults. -/
def CompositeCommand.toCommand (c : CompositeCommand) : ICommand where
  execute := fun w ctx => (c.commands.map fun k => k.execute w ctx).flatten

/-- CommandUtils::combineCommands (main.cpp:143-149): folds addCommand
over the given pointer list starting from an empty composite. -/
def CommandUtils.combineCommands (list : List (Option ICommand)) : ICommand :=
  (list.foldl CompositeCommand.addCommand ⟨[]⟩).toCommand

/-- One entry of a built QMenu: a separator (addSeparator), an action
(addAction with its connected command and its setEnabled flag), or a
nested sub-menu (addMenu). -/
inductive MenuEntry where
  | separator
  | action (label : String) (cmd : ICommand) (enabled : Bool)
  | submenu (title : String) (entries : List MenuEntry)

/-- MenuStrategy (main.cpp:208-211): abstract class with virtual
createMenu; a structure of one function, inhabitants model subclasses. -/
structure MenuStrategy where
  createMenu : World → CommandContext → List MenuEntry

/-- MenuStrategy::addCommandAction (main.cpp:214-224): returns the menu
unchanged when the command pointer is null or isVisible is false;
otherwise appends an action whose enabled flag is isEnable evaluated
now. -/
def addCommandAction (w : World) (menu : List MenuEntry) (text : String)
    (cmd : Option ICommand) (ctx : CommandContext) : List MenuEntry :=
  match cmd with
  | none => menu
  | some c =>
    if c.isVisible w ctx then
      menu ++ [MenuEntry.action text c (c.isEnable w ctx)]
    else
      menu

/-- MenuStrategy::addCommandAction label-only overload (main.cpp:226-228):
delegates with a fresh NullCommand. -/
def addCommandActionNoCmd (w : World) (menu : List MenuEntry) (text : String)
    (ctx : CommandContext) : List MenuEntry :=
  addCommandAction w menu text (some NullCommand) ctx

/-- BaseMenuDecorator (main.cpp:232-254): builds the wrapped menu (or a
fresh empty one), adds a separator, then 复制 bound to CopyCommand, 剪切
label-only, 粘贴 bound to PasteCommand. -/
def BaseMenuDecorator (wrapped : Option MenuStrategy) : MenuStrategy where
  createMenu := fun w ctx =>
    let menu := match wrapped with
      | some s => s.createMenu w ctx
      | none => []
    let menu := menu ++ [MenuEntry.separator]
    let menu := addCommandAction w menu "复制" (some CopyCommand) ctx
    let menu := addCommandActionNoCmd w menu "剪切" ctx
    let menu := addCommandAction w menu "粘贴" (some PasteCommand) ctx
    menu

/-- PasteOnlyMenuDecorator (main.cpp:256-276): builds the wrapped menu
(or a fresh empty one), adds a separator, then 粘贴 label-only (so bound
to a fresh NullCommand). -/
def PasteOnlyMenuDecorator (wrapped : Option MenuStrategy) : MenuStrategy where
  createMenu := fun w ctx =>
    let menu := match wrapped with
      | some s => s.createMenu w ctx
      | none => []
    let menu := menu ++ [MenuEntry.separator]
    let menu := addCommandActionNoCmd w menu "粘贴" ctx
    menu

/-- TextItemMenuStrategy (main.cpp:279-287): two label-only entries. -/
def TextItemMenuStrategy : MenuStrategy where
  createMenu := fun w ctx =>
    let menu : List MenuEntry := []
    let menu := addCommandActionNoCmd w menu "编辑文本" ctx
    let menu := addCommandActionNoCmd w menu "改变字体" ctx
    menu

/-- BackgroundMenuStrategy (main.cpp:290-298): two label-only entries. -/
def BackgroundMenuStrategy : MenuStrategy where
  createMenu := fun w ctx =>
    let menu : List MenuEntry := []
    let menu := addCommandActionNoCmd w menu "添加幻灯片" ctx
    let menu := addCommandActionNoCmd w menu "版式布局" ctx
    menu

/-- NoBaseMenuStrategy (main.cpp:301-313): one entry bound to a composite
of CustomCommand1 and CustomCommand2. -/
def NoBaseMenuStrategy : MenuStrategy where
  createMenu := fun w ctx =>
    let menu : List MenuEntry := []
    let combo := (CompositeCommand.addCommand
      (CompositeCommand.addCommand ⟨[]⟩ (some CustomCommand1))
      (some CustomCommand2)).toCommand
    let menu := addCommandAction w menu "无公共操作，仅特殊操作" (some combo) ctx
    menu

/-- CircleMenuStrategy (main.cpp:316-337): two label-only entries, then a
sub-menu 图形属性 holding 旋转 bound to combineCommands of CustomCommand1
and CustomCommand2, and 缩放 label-only. -/
def CircleMenuStrategy : MenuStrategy where
  createMenu := fun w ctx =>
    let menu : List MenuEntry := []
    let menu := addCommandActionNoCmd w menu "改变颜色" ctx
    let menu := addCommandActionNoCmd w menu "改变大小" ctx
    let combo := CommandUtils.combineCommands
      [some CustomCommand1, some CustomCommand2]
    let sub : List MenuEntry := []
    let sub := addCommandAction w sub "旋转" (some combo) ctx
    let sub := addCommandActionNoCmd w sub "缩放" ctx
    menu ++ [MenuEntry.submenu "图形属性" sub]

/-- A registered creator (MenuStrategyFactory::Creator, main.cpp:346):
a zero-argument factory of strategies. -/
def Creator := Unit → MenuStrategy

/-- MenuStrategyFactory (main.cpp:344-367): the QMap from type string to
creator, modelled as an association list with unique keys. -/
structure MenuStrategyFactory where
  creators : List (String × Creator) := []

/-- MenuStrategyFactory::registerCreator (main.cpp:354-356):
creators[type] = creator, which replaces any existing binding for that
key: the old binding is removed and the new one inserted. -/
def MenuStrategyFactory.registerCreator (f : MenuStrategyFactory)
    (type : String) (creator : Creator) : MenuStrategyFactory :=
  ⟨(type, creator) :: f.creators.filter fun p => !(p.1 == type)⟩

/-- MenuStrategyFactory::create (main.cpp:358-363): when the key is
present, call its creator; otherwise return null.  The returned factory
state records that create never mutates the map. -/
def MenuStrategyFactory.create (f : MenuStrategyFactory) (type : String) :
    Option MenuStrategy × MenuStrategyFactory :=
  match f.creators.lookup type with
  | some c => (some (c ()), f)
  | none => (none, f)

/-- registerMenuStrategies (main.cpp:426-441): the startup registration
pass over the four type identifiers. -/
def registerMenuStrategies (f : MenuStrategyFactory) : MenuStrategyFactory :=
  let f := f.registerCreator "TextItem"
    (fun _ => BaseMenuDecorator (some TextItemMenuStrategy))
  let f := f.registerCreator "Background"
    (fun _ => PasteOnlyMenuDecorator (some BackgroundMenuStrategy))
  let f := f.registerCreator "Special"
    (fun _ => NoBaseMenuStrategy)
  let f := f.registerCreator "Circle"
    (fun _ => BaseMenuDecorator (some CircleMenuStrategy))
  f

/-- The factory state after the startup registration pass from an empty
map, as main() produces before any dispatch (main.cpp:450). -/
def startupFactory : MenuStrategyFactory :=
  registerMenuStrategies ⟨[]⟩

/-- Outcome of the hit test itemAt(scenePos): nothing under the point, a
QGraphicsItem that is not a BaseCustomItem (dynamic_cast fails), or a
BaseCustomItem with its objectType string. -/
inductive SceneItem where
  | base (objectType : String)
  | nonBase

/-- Terminal outcome of one dispatch: a menu with these entries was
presented, or control fell through to QGraphicsScene default handling. -/
inductive DispatchResult where
  | menuShown (entries : List MenuEntry)
  | defaultHandling

/-- The fallback tail of CustomScene::contextMenuEvent
(main.cpp:406-415): look up "Background"; when registered, build its menu
with a fresh default-constructed context; otherwise defer to the base
class handler. -/
def contextMenuFallback (w : World) (f : MenuStrategyFactory) :
    DispatchResult :=
  match (f.create "Background").1 with
  | some s => DispatchResult.menuShown (s.createMenu w {})
  | none => DispatchResult.defaultHandling

/-- CustomScene::contextMenuEvent (main.cpp:379-416): when the hit test
yields a BaseCustomItem whose objectType has a registered strategy, build
that menu with a context carrying the scene and a one-item selection;
in every other case fall through to the Background fallback. -/
def CustomScene.contextMenuEvent (w : World) (f : MenuStrategyFactory)
    (hit : Option SceneItem) : DispatchResult :=
  match hit with
  | some (SceneItem.base t) =>
    match (f.create t).1 with
    | some strategy =>
      DispatchResult.menuShown (strategy.createMenu w
        { hasScene := true, selection := [some t] })
    | none => contextMenuFallback w f
  | some SceneItem.nonBase => contextMenuFallback w f
  | none => contextMenuFallback w f

/-- The enabled flag of the first action with the given label in an entry
list, ignoring separators and not descending into sub-menus. -/
def enabledOfLabel : List MenuEntry → String → Option Bool
  | [], _ => none
  | MenuEntry.separator :: rest, l => enabledOfLabel rest l
  | MenuEntry.action label _ enabled :: rest, l =>
    if label == l then some enabled else enabledOfLabel rest l
  | MenuEntry.submenu _ _ :: rest, l => enabledOfLabel rest l

/-- The enabled flag of the first action labelled 粘贴 (Paste) in a shown
menu, none when no menu was shown or no such action exists. -/
def DispatchResult.pasteEnabled : DispatchResult → Option Bool
  | DispatchResult.menuShown es => enabledOfLabel es "粘贴"
  | DispatchResult.defaultHandling => none

/-- An ICommand subclass overriding isVisible to false; the visibility
contract of addCommandAction quantifies over arbitrary subclasses. -/
def HiddenCommand : ICommand where
  execute := fun _ _ => []
  isVisible := fun _ _ => false

/-- Folding addCommand over a pointer list appends exactly the non-null
commands, in order, to the stored child vector. -/
theorem compositeCommands_foldl (inserted : List (Option ICommand))
    (acc : CompositeCommand) :
    (inserted.foldl CompositeCommand.addCommand acc).commands
      = acc.commands ++ inserted.filterMap id := by
  induction inserted generalizing acc with
  | nil => simp
  | cons head tail ih =>
    cases head with
    | none => simp [CompositeCommand.addCommand, ih]
    | some k => simp [CompositeCommand.addCommand, ih]

/-- C1 counterexample: with the clipboard empty, a dispatch with no item
under the point resolves to the Background strategy, and the 粘贴 (Paste)
entry of the built menu is enabled — not disabled as the claim states —
because PasteOnlyMenuDecorator adds 粘贴 through the label-only helper,
binding a fresh NullCommand instead of PasteCommand. -/
theorem background_paste_enabled_counterexample :
    String.isEmpty "" = true ∧
    (CustomScene.contextMenuEvent ⟨""⟩ startupFactory none).pasteEnabled
      = some true ∧
    (CustomScene.contextMenuEvent ⟨""⟩ startupFactory none).pasteEnabled
      ≠ some false :=
  ⟨rfl, rfl, fun h => nomatch h⟩

/-- C1 amended: for every dispatch (any clipboard state), the Background
menu's 粘贴 entry is always enabled (it binds NullCommand), while the
粘贴 entry of the BaseMenuDecorator menus (TextItem, Circle) has enabled
equal to the clipboard-non-empty predicate evaluated at build time, so it
is recomputed per dispatch and never cached. -/
theorem paste_enablement_per_dispatch (w : World) :
    (CustomScene.contextMenuEvent w startupFactory none).pasteEnabled
      = some true ∧
    (CustomScene.contextMenuEvent w startupFactory
      (some (SceneItem.base "TextItem"))).pasteEnabled
      = some (!w.clipboardText.isEmpty) ∧
    (CustomScene.contextMenuEvent w startupFactory
      (some (SceneItem.base "Circle"))).pasteEnabled
      = some (!w.clipboardText.isEmpty) :=
  ⟨rfl, rfl, rfl⟩

/-- C2 counterexample: adding an entry with a null command leaves the menu
unchanged (the entry is absent), while adding the same entry bound to
NullCommand appends a visible enabled action — the two behaviours differ,
refuting the claimed equivalence. -/
theorem null_command_entry_counterexample :
    addCommandAction ⟨""⟩ [] "X" none {} = [] ∧
    addCommandAction ⟨""⟩ [] "X" (some NullCommand) {}
      = [MenuEntry.action "X" NullCommand true] ∧
    addCommandAction ⟨""⟩ [] "X" none {}
      ≠ addCommandAction ⟨""⟩ [] "X" (some NullCommand) {} :=
  ⟨rfl, rfl, fun h => nomatch h⟩

/-- C2 amended: a null command bound to an entry is never a fault — the
helper silently skips the entry, returning the menu unchanged — whereas
the label-only overload (the absent-command case) substitutes a fresh
NullCommand, so that entry appears visible and enabled and triggering it
performs nothing. -/
theorem null_command_skipped (w : World) (menu : List MenuEntry)
    (text : String) (ctx : CommandContext) :
    addCommandAction w menu text none ctx = menu ∧
    addCommandActionNoCmd w menu text ctx
      = menu ++ [MenuEntry.action text NullCommand true] ∧
    NullCommand.execute w ctx = [] :=
  ⟨rfl, rfl, rfl⟩

/-- C3: for every wrapped strategy and context, each decorator's menu is
the wrapped menu (empty when no wrapped strategy is present), then exactly
one separator, then the decorator's fixed shared entries in fixed order:
BaseMenuDecorator appends 复制 (CopyCommand, always enabled), 剪切
(NullCommand, always enabled) and 粘贴 (PasteCommand, enabled iff the
clipboard is non-empty); PasteOnlyMenuDecorator appends 粘贴 (NullCommand,
always enabled). -/
theorem decorator_ordering (S : MenuStrategy) (w : World)
    (ctx : CommandContext) :
    (BaseMenuDecorator (some S)).createMenu w ctx
      = S.createMenu w ctx ++
        [MenuEntry.separator,
         MenuEntry.action "复制" CopyCommand true,
         MenuEntry.action "剪切" NullCommand true,
         MenuEntry.action "粘贴" PasteCommand (!w.clipboardText.isEmpty)] ∧
    (BaseMenuDecorator none).createMenu w ctx
      = [MenuEntry.separator,
         MenuEntry.action "复制" CopyCommand true,
         MenuEntry.action "剪切" NullCommand true,
         MenuEntry.action "粘贴" PasteCommand (!w.clipboardText.isEmpty)] ∧
    (PasteOnlyMenuDecorator (some S)).createMenu w ctx
      = S.createMenu w ctx ++
        [MenuEntry.separator,
         MenuEntry.action "粘贴" NullCommand true] ∧
    (PasteOnlyMenuDecorator none).createMenu w ctx
      = [MenuEntry.separator,
         MenuEntry.action "粘贴" NullCommand true] := by
  refine ⟨?_, ?_, ?_, ?_⟩ <;>
    simp [BaseMenuDecorator, PasteOnlyMenuDecorator, addCommandAction,
      addCommandActionNoCmd, CopyCommand, NullCommand, PasteCommand]

/-- C4: an entry whose bound command reports isVisible = false at build
time is entirely absent from the built menu: the helper returns the menu
unchanged, adding no flagged entry. -/
theorem visibility_filtering (w : World) (menu : List MenuEntry)
    (text : String) (cmd : ICommand) (ctx : CommandContext)
    (h : cmd.isVisible w ctx = false) :
    addCommandAction w menu text (some cmd) ctx = menu := by
  simp [addCommandAction, h]

/-- C4 witness: HiddenCommand has isVisible = false, and adding it to an
empty menu leaves the menu empty. -/
theorem visibility_filtering_witness :
    HiddenCommand.isVisible ⟨""⟩ {} = false ∧
    addCommandAction ⟨""⟩ [] "X" (some HiddenCommand) {} = [] :=
  ⟨rfl, visibility_filtering ⟨""⟩ [] "X" HiddenCommand {} rfl⟩

/-- C5: when the hit item's type identifier has no registered factory, the
dispatch outcome equals that of a dispatch with nothing (or a
non-BaseCustomItem) under the point — all resolve through the Background
fallback — and when "Background" is also unregistered, the outcome is
default handling with no menu. -/
theorem fallback_chain (w : World) (f : MenuStrategyFactory) (t : String)
    (h : f.creators.lookup t = none) :
    CustomScene.contextMenuEvent w f (some (SceneItem.base t))
      = CustomScene.contextMenuEvent w f none ∧
    CustomScene.contextMenuEvent w f (some SceneItem.nonBase)
      = CustomScene.contextMenuEvent w f none ∧
    (f.creators.lookup "Background" = none →
      CustomScene.contextMenuEvent w f (some (SceneItem.base t))
        = DispatchResult.defaultHandling ∧
      CustomScene.contextMenuEvent w f none
        = DispatchResult.defaultHandling) := by
  refine ⟨?_, rfl, fun hb => ⟨?_, ?_⟩⟩ <;>
    simp [CustomScene.contextMenuEvent, MenuStrategyFactory.create, h,
      contextMenuFallback, *]

/-- C5 witness: in the empty factory, "Circle" is unregistered and so is
"Background", so a dispatch on a Circle item ends in default handling. -/
theorem fallback_chain_witness :
    (⟨[]⟩ : MenuStrategyFactory).creators.lookup "Circle" = none ∧
    CustomScene.contextMenuEvent ⟨""⟩ ⟨[]⟩ (some (SceneItem.base "Circle"))
      = DispatchResult.defaultHandling :=
  ⟨rfl, ((fallback_chain ⟨""⟩ ⟨[]⟩ "Circle" rfl).2.2 rfl).1⟩

/-- C6: for every insertion sequence of possibly-null child pointers and
every context, the composite built by folding addCommand executes exactly
the non-null children, each once, in insertion order, with no early
abort: its trace is the concatenation of the children's traces. -/
theorem composite_order (inserted : List (Option ICommand)) (w : World)
    (ctx : CommandContext) :
    ((inserted.foldl CompositeCommand.addCommand ⟨[]⟩).toCommand).execute w ctx
      = ((inserted.filterMap id).map fun c => c.execute w ctx).flatten := by
  simp [CompositeCommand.toCommand, compositeCommands_foldl]

/-- C7: create after register yields exactly the registered factory's
product, and re-registering the same identifier replaces the previous
factory entirely, so a later create uses only the newest one. -/
theorem registry_determinism (f : MenuStrategyFactory) (t : String)
    (c d : Creator) :
    ((f.registerCreator t c).create t).1 = some (c ()) ∧
    (((f.registerCreator t c).registerCreator t d).create t).1
      = some (d ()) := by
  constructor <;>
    simp [MenuStrategyFactory.create, MenuStrategyFactory.registerCreator,
      List.lookup]

/-- C9: create on an unregistered identifier returns absent, without a
fault, and leaves the factory's creator map unchanged. -/
theorem create_unregistered_absent (f : MenuStrategyFactory) (t : String)
    (h : f.creators.lookup t = none) :
    f.create t = (none, f) := by
  simp [MenuStrategyFactory.create, h]

/-- C9 witness: "Rect" is not among the four startup registrations, and
create on it returns absent with the factory unchanged. -/
theorem create_unregistered_absent_witness :
    startupFactory.creators.lookup "Rect" = none ∧
    startupFactory.create "Rect" = (none, startupFactory) :=
  ⟨rfl, create_unregistered_absent startupFactory "Rect" rfl⟩

/-- C8: an entry whose command reports isVisible = true and
isEnable = false at build time is appended to the menu, present but
marked disabled — enablement and visibility act independently. -/
theorem enablement_independent (w : World) (menu : List MenuEntry)
    (text : String) (cmd : ICommand) (ctx : CommandContext)
    (hv : cmd.isVisible w ctx = true) (he : cmd.isEnable w ctx = false) :
    addCommandAction w menu text (some cmd) ctx
      = menu ++ [MenuEntry.action text cmd false] := by
  simp [addCommandAction, hv, he]

/-- C8 witness: with an empty clipboard, PasteCommand is visible but not
enabled, and adding it yields a present, disabled 粘贴 entry. -/
theorem enablement_independent_witness :
    PasteCommand.isVisible ⟨""⟩ {} = true ∧
    PasteCommand.isEnable ⟨""⟩ {} = false ∧
    addCommandAction ⟨""⟩ [] "粘贴" (some PasteCommand) {}
      = [MenuEntry.action "粘贴" PasteCommand false] :=
  ⟨rfl, rfl, enablement_independent ⟨""⟩ [] "粘贴" PasteCommand {} rfl rfl⟩

/-- C10: the label-only helper always appends exactly one entry, bound to
a fresh NullCommand whose inherited isVisible and isEnable are true, so
every placeholder entry is shown, actionable, and a no-op when triggered,
for every world (clipboard state) and context (selection state). -/
theorem label_only_entry_default (w : World) (menu : List MenuEntry)
    (text : String) (ctx : CommandContext) :
    addCommandActionNoCmd w menu text ctx
      = menu ++ [MenuEntry.action text NullCommand true] ∧
    NullCommand.isVisible w ctx = true ∧
    NullCommand.isEnable w ctx = true ∧
    NullCommand.execute w ctx = [] :=
  ⟨rfl, rfl, rfl, rfl⟩
